import Mathlib

/-!
Verification of the audio capture and similarity scoring engine of an
Angular audio-imitation app (angular-dex).

Shallow embedding conventions:
  - TypeScript numbers are modelled as exact rationals (`ℚ`).
  - JavaScript `Map<number, T>` objects are modelled as association lists
    `List (ℕ × T)` with `Map.get` / `Map.set` semantics.
  - Thrown-and-caught exceptions of external calls are modelled with
    `Except` / `Option` results.
  - External resource objects (WaveSurfer instances, record plugins,
    object URLs) are modelled as opaque ℕ handles.

Sources embedded:
  - src/app/services/audio-analysis.service.ts (class AudioAnalysisService):
    `extractFeatures` and the strict `calculateSimilarity` variant.
  - the second, boosted variant of the same service (unnamed source file,
    the variant the design document describes): `calculateSimilarity`
    with the generosity boost.
  - src/app/components/pokemon-list/pokemon-list-component.ts
    (class PokemonListComponent): `toggleRecording`, `initializeRecording`,
    the record-end handler, `onPokemonClick`, `initializeWaveform`,
    `compareAudio`, `cleanupWavesurfers`, `cleanupRecordingSessions`.
-/

/-- The AudioFeatures interface of audio-analysis.service.ts: four scalar
descriptors of one audio buffer (rms, spectralCentroid, zcr, energy). -/
structure AudioFeatures where
  rms : ℚ
  spectralCentroid : ℚ
  zcr : ℚ
  energy : ℚ
deriving DecidableEq

/-- The final `parseFloat(x.toFixed(2))` step: rounding to two decimal
places. ECMAScript toFixed picks the nearest hundredth, ties toward the
larger numerator, which for the nonnegative scores produced here is
floor of `x * 100 + 1/2` divided by `100`. -/
def round2 (q : ℚ) : ℚ :=
  ((⌊q * 100 + 1/2⌋ : ℤ) : ℚ) / 100

/-- Local const `rmsSimilarity` of the boosted `calculateSimilarity`:
`Math.max(0, 100 - rmsDiff * 50)` where `rmsDiff = |f1.rms - f2.rms|`. -/
def rmsSimilarity (f1 f2 : AudioFeatures) : ℚ :=
  max 0 (100 - |f1.rms - f2.rms| * 50)

/-- Local const `spectralSimilarity`: `Math.max(0, 100 - spectralDiff / 200)`. -/
def spectralSimilarity (f1 f2 : AudioFeatures) : ℚ :=
  max 0 (100 - |f1.spectralCentroid - f2.spectralCentroid| / 200)

/-- Local const `zcrSimilarity`: `Math.max(0, 100 - zcrDiff * 30)`. -/
def zcrSimilarity (f1 f2 : AudioFeatures) : ℚ :=
  max 0 (100 - |f1.zcr - f2.zcr| * 30)

/-- Local const `energySimilarity`: `Math.max(0, 100 - energyDiff * 40)`. -/
def energySimilarity (f1 f2 : AudioFeatures) : ℚ :=
  max 0 (100 - |f1.energy - f2.energy| * 40)

/-- Local const `overallSimilarity` of the boosted variant: weighted sum
with weights rms 0.3, spectralCentroid 0.2, zcr 0.2, energy 0.3. -/
def overallSimilarity (f1 f2 : AudioFeatures) : ℚ :=
  rmsSimilarity f1 f2 * 0.3 + spectralSimilarity f1 f2 * 0.2 +
    zcrSimilarity f1 f2 * 0.2 + energySimilarity f1 f2 * 0.3

/-- Local variable `boostedSimilarity`: starts as `overallSimilarity`;
if it is `>= 80` it becomes `Math.min(100, overallSimilarity + 10)`,
else if `>= 70` it becomes `Math.min(100, overallSimilarity + 5)`. -/
def boostedSimilarity (f1 f2 : AudioFeatures) : ℚ :=
  let o := overallSimilarity f1 f2
  if o ≥ 80 then min 100 (o + 10)
  else if o ≥ 70 then min 100 (o + 5)
  else o

/-- The boosted `calculateSimilarity(features1, features2)` of the second
service variant: per-descriptor clamped similarities, weighted sum,
generosity boost, then rounding to two decimals. -/
def calculateSimilarity (f1 f2 : AudioFeatures) : ℚ :=
  round2 (boostedSimilarity f1 f2)

/-- Local const `rmsSimilarity` of the strict variant in
audio-analysis.service.ts: `Math.max(0, 100 - rmsDiff * 100)`. -/
def rmsSimilarityStrict (f1 f2 : AudioFeatures) : ℚ :=
  max 0 (100 - |f1.rms - f2.rms| * 100)

/-- Local const `spectralSimilarity` of the strict variant:
`Math.max(0, 100 - spectralDiff / 100)`. -/
def spectralSimilarityStrict (f1 f2 : AudioFeatures) : ℚ :=
  max 0 (100 - |f1.spectralCentroid - f2.spectralCentroid| / 100)

/-- Local const `zcrSimilarity` of the strict variant:
`Math.max(0, 100 - zcrDiff * 100)`. -/
def zcrSimilarityStrict (f1 f2 : AudioFeatures) : ℚ :=
  max 0 (100 - |f1.zcr - f2.zcr| * 100)

/-- Local const `energySimilarity` of the strict variant:
`Math.max(0, 100 - energyDiff * 100)`. -/
def energySimilarityStrict (f1 f2 : AudioFeatures) : ℚ :=
  max 0 (100 - |f1.energy - f2.energy| * 100)

/-- Local const `overallSimilarity` of the strict variant: weights
rms 0.3, spectralCentroid 0.3, zcr 0.2, energy 0.2. -/
def overallSimilarityStrict (f1 f2 : AudioFeatures) : ℚ :=
  rmsSimilarityStrict f1 f2 * 0.3 + spectralSimilarityStrict f1 f2 * 0.3 +
    zcrSimilarityStrict f1 f2 * 0.2 + energySimilarityStrict f1 f2 * 0.2

/-- The strict `calculateSimilarity(features1, features2)` of
audio-analysis.service.ts: no boost step, direct rounding of the
weighted sum. -/
def calculateSimilarityStrict (f1 f2 : AudioFeatures) : ℚ :=
  round2 (overallSimilarityStrict f1 f2)

/-- The generosity boost exactly as the design document words it: if the
overall similarity is at least 80 add 10 capped at 100, else if at least
70 add 5 capped at 100, otherwise leave it unchanged. -/
def specBoostRule (o : ℚ) : ℚ :=
  if o ≥ 80 then min 100 (o + 10)
  else if o ≥ 70 then min 100 (o + 5)
  else o

lemma simSub_bounds (y : ℚ) (hy : 0 ≤ y) :
    0 ≤ max 0 (100 - y) ∧ max 0 (100 - y) ≤ 100 := by
  constructor
  · exact le_max_left _ _
  · apply max_le <;> linarith

lemma rmsSimilarity_bounds (f1 f2 : AudioFeatures) :
    0 ≤ rmsSimilarity f1 f2 ∧ rmsSimilarity f1 f2 ≤ 100 :=
  simSub_bounds _ (mul_nonneg (abs_nonneg _) (by norm_num))

lemma spectralSimilarity_bounds (f1 f2 : AudioFeatures) :
    0 ≤ spectralSimilarity f1 f2 ∧ spectralSimilarity f1 f2 ≤ 100 :=
  simSub_bounds _ (div_nonneg (abs_nonneg _) (by norm_num))

lemma zcrSimilarity_bounds (f1 f2 : AudioFeatures) :
    0 ≤ zcrSimilarity f1 f2 ∧ zcrSimilarity f1 f2 ≤ 100 :=
  simSub_bounds _ (mul_nonneg (abs_nonneg _) (by norm_num))

lemma energySimilarity_bounds (f1 f2 : AudioFeatures) :
    0 ≤ energySimilarity f1 f2 ∧ energySimilarity f1 f2 ≤ 100 :=
  simSub_bounds _ (mul_nonneg (abs_nonneg _) (by norm_num))

lemma overallSimilarity_bounds (f1 f2 : AudioFeatures) :
    0 ≤ overallSimilarity f1 f2 ∧ overallSimilarity f1 f2 ≤ 100 := by
  obtain ⟨h1, h2⟩ := rmsSimilarity_bounds f1 f2
  obtain ⟨h3, h4⟩ := spectralSimilarity_bounds f1 f2
  obtain ⟨h5, h6⟩ := zcrSimilarity_bounds f1 f2
  obtain ⟨h7, h8⟩ := energySimilarity_bounds f1 f2
  unfold overallSimilarity
  constructor <;> nlinarith

lemma boostedSimilarity_bounds (f1 f2 : AudioFeatures) :
    0 ≤ boostedSimilarity f1 f2 ∧ boostedSimilarity f1 f2 ≤ 100 := by
  obtain ⟨h0, h100⟩ := overallSimilarity_bounds f1 f2
  unfold boostedSimilarity
  dsimp only
  split_ifs
  · exact ⟨le_min (by norm_num) (by linarith), min_le_left _ _⟩
  · exact ⟨le_min (by norm_num) (by linarith), min_le_left _ _⟩
  · exact ⟨h0, h100⟩

lemma round2_nonneg (q : ℚ) (h : 0 ≤ q) : 0 ≤ round2 q := by
  unfold round2
  apply div_nonneg _ (by norm_num)
  have : (0 : ℤ) ≤ ⌊q * 100 + 1/2⌋ := by
    apply Int.le_floor.mpr
    push_cast
    linarith
  exact_mod_cast this

lemma round2_le_100 (q : ℚ) (h : q ≤ 100) : round2 q ≤ 100 := by
  unfold round2
  have h1 : (⌊q * 100 + 1/2⌋ : ℚ) ≤ q * 100 + 1/2 := Int.floor_le _
  have h2 : (⌊q * 100 + 1/2⌋ : ℚ) < 10001 := by linarith
  have h3 : ⌊q * 100 + 1/2⌋ < (10001 : ℤ) := by exact_mod_cast h2
  have h4 : ⌊q * 100 + 1/2⌋ ≤ (10000 : ℤ) := by omega
  have h5 : (⌊q * 100 + 1/2⌋ : ℚ) ≤ 10000 := by exact_mod_cast h4
  rw [div_le_iff₀ (by norm_num : (0:ℚ) < 100)]
  linarith

lemma overallSimilarityStrict_bounds (f1 f2 : AudioFeatures) :
    0 ≤ overallSimilarityStrict f1 f2 ∧ overallSimilarityStrict f1 f2 ≤ 100 := by
  obtain ⟨h1, h2⟩ := simSub_bounds (|f1.rms - f2.rms| * 100)
    (mul_nonneg (abs_nonneg _) (by norm_num))
  obtain ⟨h3, h4⟩ := simSub_bounds (|f1.spectralCentroid - f2.spectralCentroid| / 100)
    (div_nonneg (abs_nonneg _) (by norm_num))
  obtain ⟨h5, h6⟩ := simSub_bounds (|f1.zcr - f2.zcr| * 100)
    (mul_nonneg (abs_nonneg _) (by norm_num))
  obtain ⟨h7, h8⟩ := simSub_bounds (|f1.energy - f2.energy| * 100)
    (mul_nonneg (abs_nonneg _) (by norm_num))
  unfold overallSimilarityStrict rmsSimilarityStrict spectralSimilarityStrict
    zcrSimilarityStrict energySimilarityStrict
  constructor <;> nlinarith

/-- C1: for every pair of FeatureSets the similarity scorer returns a value
between 0 and 100 inclusive, in both variants of `calculateSimilarity`
(the boosted one and the strict one of audio-analysis.service.ts),
including all-zero and arbitrarily large descriptor values. -/
theorem calculateSimilarity_bounded (f1 f2 : AudioFeatures) :
    0 ≤ calculateSimilarity f1 f2 ∧ calculateSimilarity f1 f2 ≤ 100 ∧
    0 ≤ calculateSimilarityStrict f1 f2 ∧ calculateSimilarityStrict f1 f2 ≤ 100 := by
  obtain ⟨hb0, hb100⟩ := boostedSimilarity_bounds f1 f2
  obtain ⟨hs0, hs100⟩ := overallSimilarityStrict_bounds f1 f2
  exact ⟨round2_nonneg _ hb0, round2_le_100 _ hb100,
    round2_nonneg _ hs0, round2_le_100 _ hs100⟩

/-- C2: scoring a FeatureSet against itself yields exactly 100 after the
boost-and-clamp and two-decimal rounding steps (and 100 in the strict
variant as well). -/
theorem calculateSimilarity_self (a : AudioFeatures) :
    calculateSimilarity a a = 100 ∧ calculateSimilarityStrict a a = 100 := by
  have hr : rmsSimilarity a a = 100 := by
    unfold rmsSimilarity; rw [sub_self, abs_zero]; norm_num
  have hs : spectralSimilarity a a = 100 := by
    unfold spectralSimilarity; rw [sub_self, abs_zero]; norm_num
  have hz : zcrSimilarity a a = 100 := by
    unfold zcrSimilarity; rw [sub_self, abs_zero]; norm_num
  have he : energySimilarity a a = 100 := by
    unfold energySimilarity; rw [sub_self, abs_zero]; norm_num
  have ho : overallSimilarity a a = 100 := by
    unfold overallSimilarity; rw [hr, hs, hz, he]; norm_num
  have hrd : round2 100 = 100 := by
    unfold round2
    norm_num
  constructor
  · unfold calculateSimilarity boostedSimilarity
    rw [ho]
    norm_num [round2]
  · have hrs : rmsSimilarityStrict a a = 100 := by
      unfold rmsSimilarityStrict; rw [sub_self, abs_zero]; norm_num
    have hss : spectralSimilarityStrict a a = 100 := by
      unfold spectralSimilarityStrict; rw [sub_self, abs_zero]; norm_num
    have hzs : zcrSimilarityStrict a a = 100 := by
      unfold zcrSimilarityStrict; rw [sub_self, abs_zero]; norm_num
    have hes : energySimilarityStrict a a = 100 := by
      unfold energySimilarityStrict; rw [sub_self, abs_zero]; norm_num
    unfold calculateSimilarityStrict
    rw [show overallSimilarityStrict a a = 100 by
      unfold overallSimilarityStrict; rw [hrs, hss, hzs, hes]; norm_num]
    exact hrd

/-- C3: the scorer applies the generosity boost to the weighted overall
similarity before the two-decimal rounding: at least 80 means add 10
capped at 100, else at least 70 means add 5 capped at 100, else the
value is unchanged. -/
theorem calculateSimilarity_boost_cases (f1 f2 : AudioFeatures) :
    (80 ≤ overallSimilarity f1 f2 →
      calculateSimilarity f1 f2 = round2 (min 100 (overallSimilarity f1 f2 + 10))) ∧
    (70 ≤ overallSimilarity f1 f2 → overallSimilarity f1 f2 < 80 →
      calculateSimilarity f1 f2 = round2 (min 100 (overallSimilarity f1 f2 + 5))) ∧
    (overallSimilarity f1 f2 < 70 →
      calculateSimilarity f1 f2 = round2 (overallSimilarity f1 f2)) := by
  unfold calculateSimilarity boostedSimilarity
  dsimp only
  refine ⟨fun h80 => ?_, fun h70 hlt80 => ?_, fun hlt70 => ?_⟩
  · rw [if_pos h80]
  · rw [if_neg (by exact not_le.mpr hlt80), if_pos h70]
  · rw [if_neg (by exact not_le.mpr (by linarith)),
      if_neg (by exact not_le.mpr hlt70)]

/-- C3 witness: one concrete input in each boost regime. Identical
all-zero features give overall similarity 100 (boost adds 10, capped);
rms difference 2 with the rest equal gives exactly 70 (boost adds 5);
large differences in every descriptor give overall 8 (no boost). -/
theorem calculateSimilarity_boost_cases_holds :
    calculateSimilarity ⟨0, 0, 0, 0⟩ ⟨0, 0, 0, 0⟩ =
      round2 (min 100 (overallSimilarity ⟨0, 0, 0, 0⟩ ⟨0, 0, 0, 0⟩ + 10)) ∧
    calculateSimilarity ⟨2, 0, 0, 0⟩ ⟨0, 0, 0, 0⟩ =
      round2 (min 100 (overallSimilarity ⟨2, 0, 0, 0⟩ ⟨0, 0, 0, 0⟩ + 5)) ∧
    calculateSimilarity ⟨2, 20000, 2, 3⟩ ⟨0, 0, 0, 0⟩ =
      round2 (overallSimilarity ⟨2, 20000, 2, 3⟩ ⟨0, 0, 0, 0⟩) :=
  ⟨(calculateSimilarity_boost_cases ⟨0, 0, 0, 0⟩ ⟨0, 0, 0, 0⟩).1
      (by norm_num [overallSimilarity, rmsSimilarity, spectralSimilarity,
        zcrSimilarity, energySimilarity]),
   (calculateSimilarity_boost_cases ⟨2, 0, 0, 0⟩ ⟨0, 0, 0, 0⟩).2.1
      (by norm_num [overallSimilarity, rmsSimilarity, spectralSimilarity,
        zcrSimilarity, energySimilarity])
      (by norm_num [overallSimilarity, rmsSimilarity, spectralSimilarity,
        zcrSimilarity, energySimilarity]),
   (calculateSimilarity_boost_cases ⟨2, 20000, 2, 3⟩ ⟨0, 0, 0, 0⟩).2.2
      (by norm_num [overallSimilarity, rmsSimilarity, spectralSimilarity,
        zcrSimilarity, energySimilarity])⟩

/-- C4: with reference rms 0.8, attempt rms 0, and the spectral centroid,
zero crossing rate and energy descriptors equal, the rms similarity term
of the boosted scorer is `max(0, 100 - 0.8 * 50) = 60`, and that term
enters the weighted overall similarity as the contribution
`60 * 0.3 = 18`. -/
theorem rms_term_scenario (sc z e : ℚ) :
    rmsSimilarity ⟨0.8, sc, z, e⟩ ⟨0, sc, z, e⟩ = 60 ∧
    overallSimilarity ⟨0.8, sc, z, e⟩ ⟨0, sc, z, e⟩ =
      60 * 0.3 + spectralSimilarity ⟨0.8, sc, z, e⟩ ⟨0, sc, z, e⟩ * 0.2 +
        zcrSimilarity ⟨0.8, sc, z, e⟩ ⟨0, sc, z, e⟩ * 0.2 +
        energySimilarity ⟨0.8, sc, z, e⟩ ⟨0, sc, z, e⟩ * 0.3 ∧
    (60 : ℚ) * 0.3 = 18 := by
  have h60 : rmsSimilarity ⟨0.8, sc, z, e⟩ ⟨0, sc, z, e⟩ = 60 := by
    unfold rmsSimilarity
    dsimp only
    rw [sub_zero, show |(0.8 : ℚ)| = 0.8 from abs_of_nonneg (by norm_num),
      show (100 : ℚ) - 0.8 * 50 = 60 by norm_num]
    exact max_eq_right (by norm_num)
  refine ⟨h60, ?_, by norm_num⟩
  unfold overallSimilarity
  rw [h60]

/-- An AudioBuffer as the extractor consumes it: the decoded samples of
channel 0 (the only channel read, via `getChannelData(0)`) and the sample
rate. `audioBuffer.length` is the length of the sample sequence. -/
structure AudioBuffer where
  channel0 : List ℚ
  sampleRate : ℚ
deriving DecidableEq

/-- The `extractFeatures(audioBuffer)` method of AudioAnalysisService
(identical in both variants of the service). The external `Meyda.extract`
call is a parameter `meyda`; its thrown exceptions, which the method
catches and converts to `null`, are modelled by `meyda` returning `none`.
The guard `!audioBuffer || audioBuffer.length === 0` is the outer match
plus the length test; the analysis window is
`slice(0, Math.min(4096, audioBuffer.length))`. -/
def extractFeatures (meyda : List ℚ → Option AudioFeatures)
    (audioBuffer : Option AudioBuffer) : Option AudioFeatures :=
  match audioBuffer with
  | none => none
  | some buf =>
    if buf.channel0.length = 0 then none
    else
      let sampleLength := min 4096 buf.channel0.length
      let signal := buf.channel0.take sampleLength
      meyda signal

/-- Modelled from the spec: `Meyda.extract` is an external library call
(npm package meyda), absent from the repository sources. Per the design
document the spectral feature computation is deterministic for a given
window, fails only when it cannot run on the windowed signal, and a
nonempty window of available samples is processed without error; the
failure case is therefore modelled as the empty window, and the four
descriptors are an arbitrary deterministic function `computeF` of the
window (no claim depends on the descriptor values). -/
def meydaExtract (computeF : List ℚ → AudioFeatures) :
    List ℚ → Option AudioFeatures :=
  fun signal => if signal.length = 0 then none else some (computeF signal)

/-- A WaveSurfer record-session value, interface RecorderState of
pokemon-list-component.ts: the recording wavesurfer handle, the record
plugin handle, the optional post-capture playback wavesurfer handle, and
the isRecording flag. -/
structure RecorderState where
  wavesurfer : ℕ
  record : ℕ
  playbackWavesurfer : Option ℕ
  isRecording : Bool
deriving DecidableEq

/-- The mutable state of PokemonListComponent that the audio engine
touches: the reference-audio wavesurfers map, the recording sessions map,
the similarityScores object, plus a counter for allocating fresh handles
for externally created resources. -/
structure ComponentState where
  wavesurfers : List (ℕ × ℕ)
  recordingSessions : List (ℕ × RecorderState)
  similarityScores : List (ℕ × ℚ)
  nextHandle : ℕ
deriving DecidableEq

/-- `Map.get(k)` on an association list. -/
def lookupEntry {α : Type} : List (ℕ × α) → ℕ → Option α
  | [], _ => none
  | p :: rest, k => if p.1 = k then some p.2 else lookupEntry rest k

/-- `Map.set(k, v)` on an association list: replaces the binding of `k`
or appends a new one. -/
def updateEntry {α : Type} : List (ℕ × α) → ℕ → α → List (ℕ × α)
  | [], k, v => [(k, v)]
  | p :: rest, k, v => if p.1 = k then (k, v) :: rest else p :: updateEntry rest k v

/-- Calls the component makes on the external audio stack (WaveSurfer,
record plugin, timers), in order. URLs are opaque ℕ tokens. -/
inductive ExtAction where
  | play (h : ℕ)
  | createWavesurfer (h : ℕ) (url : ℕ)
  | createRecordingWavesurfer (h : ℕ)
  | registerRecordPlugin (h : ℕ)
  | startRecordingCall (h : ℕ)
  | stopRecordingCall (h : ℕ)
  | scheduleCompare (pid : ℕ)
  | createPlaybackFromBlob (h : ℕ)
  | destroyCall (h : ℕ)
  | stopCall (h : ℕ)
deriving DecidableEq

/-- The tail of `toggleRecording` after the session is in hand: if a
playback wavesurfer exists, play it and return; else toggle between
`stopRecording` (clearing isRecording, scheduling `compareAudio`) and
`startRecording` (setting isRecording). The field assignments
`session.isRecording = …` mutate the object held in the map. -/
def toggleStep (pid : ℕ) (session : RecorderState) (st : ComponentState)
    (acts : List ExtAction) : ComponentState × List ExtAction :=
  match session.playbackWavesurfer with
  | some pb => (st, acts ++ [ExtAction.play pb])
  | none =>
    if session.isRecording then
      ({ st with recordingSessions :=
          updateEntry st.recordingSessions pid { session with isRecording := false } },
       acts ++ [ExtAction.stopRecordingCall session.record, ExtAction.scheduleCompare pid])
    else
      ({ st with recordingSessions :=
          updateEntry st.recordingSessions pid { session with isRecording := true } },
       acts ++ [ExtAction.startRecordingCall session.record])

/-- `toggleRecording(pokemonId)`: a missing session is first created by
`initializeRecording` (fresh wavesurfer and record-plugin handles, a
record-end listener, isRecording false); the code then re-reads the map,
obtaining exactly the session just inserted, and proceeds with the
playback / stop / start logic of `toggleStep`. -/
def toggleRecording (pid : ℕ) (st : ComponentState) : ComponentState × List ExtAction :=
  match lookupEntry st.recordingSessions pid with
  | some session => toggleStep pid session st []
  | none =>
    let wsH := st.nextHandle
    let recH := st.nextHandle + 1
    let session : RecorderState := ⟨wsH, recH, none, false⟩
    let st1 : ComponentState :=
      { st with recordingSessions := updateEntry st.recordingSessions pid session,
                nextHandle := st.nextHandle + 2 }
    toggleStep pid session st1
      [ExtAction.createRecordingWavesurfer wsH, ExtAction.registerRecordPlugin recH]

/-- The record-end listener registered by `initializeRecording` for the
session of `pid`, with `wsH` the recording wavesurfer captured by the
closure: it creates a playback wavesurfer from the recorded blob,
destroys and stops the recording wavesurfer, and, if the session is
still in the map, replaces it by a copy extended with the playback
wavesurfer (the spread `{...session, playbackWavesurfer}` copies the
CURRENT isRecording value). The final `isRecording = false` of the
handler writes a closure-local variable, not the session object, and is
therefore without effect on the state. -/
def recordEnd (pid wsH : ℕ) (st : ComponentState) : ComponentState × List ExtAction :=
  let pbH := st.nextHandle
  let st1 : ComponentState := { st with nextHandle := st.nextHandle + 1 }
  let st2 : ComponentState :=
    match lookupEntry st1.recordingSessions pid with
    | some session =>
      let updatedSession : RecorderState := { session with playbackWavesurfer := some pbH }
      { st1 with recordingSessions := updateEntry st1.recordingSessions pid updatedSession }
    | none => st1
  (st2, [ExtAction.createPlaybackFromBlob pbH, ExtAction.destroyCall wsH,
    ExtAction.stopCall wsH])

/-- Iterated `toggleRecording` calls for one entity, keeping only the
state. -/
def iterToggle (pid : ℕ) : ℕ → ComponentState → ComponentState
  | 0, st => st
  | Nat.succ k, st => iterToggle pid k (toggleRecording pid st).1

/-- The cries data of one Pokemon as the GraphQL query shapes it. URLs
are opaque ℕ tokens; the token 0 stands for the empty string, the one
falsy URL value. -/
structure PokemonCry where
  latest : Option ℕ
deriving DecidableEq

/-- One element of the pokemoncries array. -/
structure PokemonCryEdge where
  cries : Option PokemonCry
deriving DecidableEq

/-- The fields of the Pokemon interface that `onPokemonClick` reads
(name, sprites and size fields are not consumed by the audio engine). -/
structure Pokemon where
  id : ℕ
  pokemoncries : Option (List PokemonCryEdge)
deriving DecidableEq

/-- The lookup `pokemon?.pokemoncries?.[0]?.cries?.latest || null`: every
absent link yields null, and the `||` coalescing also maps a falsy URL
(the empty string, token 0) to null. -/
def cryUrl (p : Pokemon) : Option ℕ :=
  match p.pokemoncries with
  | none => none
  | some edges =>
    match edges.head? with
    | none => none
    | some edge =>
      match edge.cries with
      | none => none
      | some cry =>
        match cry.latest with
        | none => none
        | some url => if url = 0 then none else some url

/-- `initializeWaveform(audioUrl, pokemonId)`: if a wavesurfer already
exists for this id, just play it; otherwise create one from the URL
(play-on-ready is registered on it) and store it in the map. -/
def initializeWaveform (audioUrl pid : ℕ) (st : ComponentState) :
    ComponentState × List ExtAction :=
  match lookupEntry st.wavesurfers pid with
  | some existingWavesurfer => (st, [ExtAction.play existingWavesurfer])
  | none =>
    let h := st.nextHandle
    ({ st with wavesurfers := updateEntry st.wavesurfers pid h,
               nextHandle := st.nextHandle + 1 },
     [ExtAction.createWavesurfer h audioUrl])

/-- `onPokemonClick(pokemon)`: resolve the cry URL; without one the call
does nothing, otherwise delegate to `initializeWaveform`. -/
def onPokemonClick (p : Pokemon) (st : ComponentState) :
    ComponentState × List ExtAction :=
  match cryUrl p with
  | none => (st, [])
  | some url => initializeWaveform url p.id st

/-- The external behavior `compareAudio` depends on: `getDecodedData()`
on a wavesurfer handle (an undocumented method reached through an `any`
cast, so it may throw, modelled by `Except.error`, or return a decoded
buffer or null), and the `Meyda.extract` behavior used inside
`extractFeatures`. -/
structure AudioEnv where
  getDecodedData : ℕ → Except Unit (Option AudioBuffer)
  meyda : List ℚ → Option AudioFeatures

/-- `compareAudio(pokemonId)`: missing session, missing playback
wavesurfer or missing reference wavesurfer log a warning and return; the
try block pulls decoded data from both wavesurfers (a throw anywhere in
the block is caught, logged and swallowed), extracts features from both
(null from either aborts), computes the similarity with the imported
AudioAnalysisService (the strict variant at the imported path) and
stores it in `similarityScores[pokemonId]`. -/
def compareAudio (env : AudioEnv) (pid : ℕ) (st : ComponentState) : ComponentState :=
  match lookupEntry st.recordingSessions pid with
  | none => st
  | some session =>
    match session.playbackWavesurfer with
    | none => st
    | some pb =>
      match lookupEntry st.wavesurfers pid with
      | none => st
      | some ws =>
        match env.getDecodedData ws with
        | Except.error _ => st
        | Except.ok pokemonBuffer =>
          match env.getDecodedData pb with
          | Except.error _ => st
          | Except.ok recordingBuffer =>
            match extractFeatures env.meyda pokemonBuffer,
                  extractFeatures env.meyda recordingBuffer with
            | some pokemonFeatures, some recordingFeatures =>
              let similarity := calculateSimilarityStrict pokemonFeatures recordingFeatures
              { st with similarityScores := updateEntry st.similarityScores pid similarity }
            | _, _ => st

/-- Destroying one handle on the external audio stack: `throwsOn`
selects the handles whose `destroy()` raises. -/
def tryDestroy (throwsOn : ℕ → Bool) (h : ℕ) : Except Unit Unit :=
  if throwsOn h then Except.error () else Except.ok ()

/-- `cleanupWavesurfers()`: iterate the wavesurfers map, destroying each
instance inside its own try/catch (a caught failure logs one warning and
the iteration continues). Returns the handles whose destroy was
attempted, in order, and the number of warnings logged; the return type
carries no error, matching the method never propagating one. -/
def cleanupWavesurfersRun (throwsOn : ℕ → Bool) : List ℕ → List ℕ × ℕ
  | [] => ([], 0)
  | h :: rest =>
    let r := cleanupWavesurfersRun throwsOn rest
    match tryDestroy throwsOn h with
    | Except.error _ => (h :: r.1, r.2 + 1)
    | Except.ok _ => (h :: r.1, r.2)

/-- The body of the `cleanupRecordingSessions()` loop for one session:
ONE try block wraps both destroys, `session.wavesurfer.destroy()` first
and `session.playbackWavesurfer.destroy()` second, so a throw from the
first jumps to the catch (one warning) with the second never attempted.
(The `if (session.wavesurfer)` guard is always true: the field holds an
object.) -/
def cleanupSessionRun (throwsOn : ℕ → Bool) (s : RecorderState) : List ℕ × ℕ :=
  match tryDestroy throwsOn s.wavesurfer with
  | Except.error _ => ([s.wavesurfer], 1)
  | Except.ok _ =>
    match s.playbackWavesurfer with
    | none => ([s.wavesurfer], 0)
    | some pb =>
      match tryDestroy throwsOn pb with
      | Except.error _ => ([s.wavesurfer, pb], 1)
      | Except.ok _ => ([s.wavesurfer, pb], 0)

/-- `cleanupRecordingSessions()`: the per-session try/catch bodies run in
sequence over the map values; a failure in one session never stops the
loop, and no error propagates (pure return type). -/
def cleanupRecordingSessionsRun (throwsOn : ℕ → Bool) :
    List RecorderState → List ℕ × ℕ
  | [] => ([], 0)
  | s :: rest =>
    let r1 := cleanupSessionRun throwsOn s
    let r2 := cleanupRecordingSessionsRun throwsOn rest
    (r1.1 ++ r2.1, r1.2 + r2.2)

lemma lookupEntry_updateEntry_ne {α : Type} (m : List (ℕ × α)) (k q : ℕ) (v : α)
    (h : q ≠ k) : lookupEntry (updateEntry m k v) q = lookupEntry m q := by
  induction m with
  | nil => simp [updateEntry, lookupEntry, Ne.symm h]
  | cons p rest ih =>
    by_cases hk : p.1 = k
    · simp [updateEntry, lookupEntry, hk, Ne.symm h]
    · by_cases hq : p.1 = q
      · simp [updateEntry, lookupEntry, hk, hq, h]
      · simp [updateEntry, lookupEntry, hk, hq, h, ih]

/-- C5: with the spec-modelled external transform, `extractFeatures` on a
zero-sample buffer fails (returns the null failure value, no FeatureSet),
and on a nonempty buffer shorter than the 4096-sample analysis window it
succeeds, the window being exactly the available samples of the buffer. -/
theorem extractFeatures_window (computeF : List ℚ → AudioFeatures) (buffer : AudioBuffer) :
    (buffer.channel0.length = 0 →
      extractFeatures (meydaExtract computeF) (some buffer) = none) ∧
    (buffer.channel0.length ≠ 0 → buffer.channel0.length < 4096 →
      extractFeatures (meydaExtract computeF) (some buffer) =
        some (computeF buffer.channel0)) := by
  constructor
  · intro h
    simp [extractFeatures, h]
  · intro hne hlt
    have hmin : min 4096 buffer.channel0.length = buffer.channel0.length :=
      min_eq_right (le_of_lt hlt)
    simp [extractFeatures, hne, hmin, List.take_length, meydaExtract]

/-- C5 witness: the empty buffer fails; a two-sample buffer is analyzed
over exactly its two samples without error. -/
theorem extractFeatures_window_holds :
    extractFeatures (meydaExtract (fun _ => ⟨0, 0, 0, 0⟩)) (some ⟨[], 0⟩) = none ∧
    extractFeatures (meydaExtract (fun _ => ⟨0, 0, 0, 0⟩)) (some ⟨[1, -1], 0⟩) =
      some ⟨0, 0, 0, 0⟩ :=
  ⟨(extractFeatures_window (fun _ => ⟨0, 0, 0, 0⟩) ⟨[], 0⟩).1 rfl,
   (extractFeatures_window (fun _ => ⟨0, 0, 0, 0⟩) ⟨[1, -1], 0⟩).2
     (by decide) (by decide)⟩

/-- C10: `extractFeatures` is total at its public interface: for every
external transform behavior it returns a FeatureSet or the null value and
never an exception, and its distinguishable failure modes, the missing or
empty input and the transform failing on the window (the thrown exception
the method catches), are all signalled by the same value `none`, so the
caller cannot tell them apart. -/
theorem extractFeatures_total (meyda : List ℚ → Option AudioFeatures)
    (audioBuffer : Option AudioBuffer) :
    (extractFeatures meyda audioBuffer = none ∨
      ∃ f, extractFeatures meyda audioBuffer = some f) ∧
    (audioBuffer = none → extractFeatures meyda audioBuffer = none) ∧
    (∀ b, audioBuffer = some b → b.channel0.length = 0 →
      extractFeatures meyda audioBuffer = none) ∧
    (∀ b, audioBuffer = some b → b.channel0.length ≠ 0 →
      meyda (b.channel0.take (min 4096 b.channel0.length)) = none →
      extractFeatures meyda audioBuffer = none) := by
  refine ⟨?_, ?_, ?_, ?_⟩
  · cases h : extractFeatures meyda audioBuffer
    · exact Or.inl rfl
    · exact Or.inr ⟨_, rfl⟩
  · rintro rfl
    rfl
  · rintro b rfl h0
    simp [extractFeatures, h0]
  · rintro b rfl hne hnone
    simp [extractFeatures, hne, hnone]

/-- C10 witness: a transform that always fails gives the same `none` on a
missing buffer, an empty buffer and a nonempty buffer. -/
theorem extractFeatures_total_holds :
    extractFeatures (fun _ => none) none = none ∧
    extractFeatures (fun _ => none) (some ⟨[], 0⟩) = none ∧
    extractFeatures (fun _ => none) (some ⟨[1], 0⟩) = none :=
  ⟨(extractFeatures_total (fun _ => none) none).2.1 rfl,
   (extractFeatures_total (fun _ => none) (some ⟨[], 0⟩)).2.2.1 ⟨[], 0⟩ rfl rfl,
   (extractFeatures_total (fun _ => none) (some ⟨[1], 0⟩)).2.2.2 ⟨[1], 0⟩ rfl
     (by decide) rfl⟩

/-- C7: `onPokemonClick` is idempotent per entity: without a cry URL the
call changes nothing and calls nothing; with a URL and an already decoded
reference wavesurfer for the entity id, the call only plays the existing
instance, creating no second resource and starting no new decode (the
state, including the wavesurfers map and the fresh-handle counter, is
untouched). -/
theorem onPokemonClick_idempotent (p : Pokemon) (st : ComponentState) :
    (cryUrl p = none → onPokemonClick p st = (st, [])) ∧
    (∀ url ws, cryUrl p = some url → lookupEntry st.wavesurfers p.id = some ws →
      onPokemonClick p st = (st, [ExtAction.play ws])) := by
  constructor
  · intro h
    simp [onPokemonClick, h]
  · intro url ws hurl hws
    simp [onPokemonClick, hurl, initializeWaveform, hws]

/-- C7 witness: entity 7 with cry URL token 3 and an existing wavesurfer
handle 42 is replayed with no state change; without cries the call is a
no-op. -/
theorem onPokemonClick_idempotent_holds :
    onPokemonClick ⟨7, some [⟨some ⟨some 3⟩⟩]⟩ ⟨[(7, 42)], [], [], 50⟩ =
      (⟨[(7, 42)], [], [], 50⟩, [ExtAction.play 42]) ∧
    onPokemonClick ⟨7, none⟩ ⟨[(7, 42)], [], [], 50⟩ =
      (⟨[(7, 42)], [], [], 50⟩, []) :=
  ⟨(onPokemonClick_idempotent ⟨7, some [⟨some ⟨some 3⟩⟩]⟩ ⟨[(7, 42)], [], [], 50⟩).2
      3 42 rfl rfl,
   (onPokemonClick_idempotent ⟨7, none⟩ ⟨[(7, 42)], [], [], 50⟩).1 rfl⟩

/-- C6 (amended): once the captured-playback resource of a session
exists, every subsequent `toggleRecording` call for that entity id only
replays the captured audio: it emits exactly one play call on the
playback wavesurfer, never invokes `startRecording` again, and leaves the
whole component state, in particular the isRecording flag, unchanged, so
any number of further toggles keeps the state fixed until the session is
reset. -/
theorem toggleRecording_playback_only (st : ComponentState) (pid : ℕ)
    (s : RecorderState) (pb : ℕ)
    (hs : lookupEntry st.recordingSessions pid = some s)
    (hpb : s.playbackWavesurfer = some pb) :
    toggleRecording pid st = (st, [ExtAction.play pb]) ∧
    ∀ k : ℕ, iterToggle pid k st = st := by
  have h1 : toggleRecording pid st = (st, [ExtAction.play pb]) := by
    simp [toggleRecording, hs, toggleStep, hpb]
  refine ⟨h1, ?_⟩
  intro k
  induction k with
  | zero => rfl
  | succ n ih =>
    show iterToggle pid n (toggleRecording pid st).1 = st
    rw [h1]
    exact ih

/-- C6 witness: a session for entity 1 with captured playback handle 2:
one toggle only plays handle 2 and five further toggles leave the state
unchanged. -/
theorem toggleRecording_playback_only_holds :
    toggleRecording 1 ⟨[], [(1, ⟨0, 1, some 2, false⟩)], [], 3⟩ =
      (⟨[], [(1, ⟨0, 1, some 2, false⟩)], [], 3⟩, [ExtAction.play 2]) ∧
    iterToggle 1 5 ⟨[], [(1, ⟨0, 1, some 2, false⟩)], [], 3⟩ =
      ⟨[], [(1, ⟨0, 1, some 2, false⟩)], [], 3⟩ := by
  have h := toggleRecording_playback_only ⟨[], [(1, ⟨0, 1, some 2, false⟩)], [], 3⟩ 1
    ⟨0, 1, some 2, false⟩ 2 rfl rfl
  exact ⟨h.1, h.2 5⟩

/-- The component state reached by this event sequence on entity 1,
starting from the empty component state: toggleRecording (creates the
session and starts recording), toggleRecording (stops recording; the
record-end notification is asynchronous and still pending),
toggleRecording (no playback exists yet and isRecording is false, so a
NEW recording starts, setting isRecording true), then the pending
record-end notification fires (wavesurfer handle 0 was captured by the
listener closure) and stores the playback wavesurfer by spreading the
current session, whose isRecording is true. -/
def racedTraceState : ComponentState :=
  (recordEnd 1 0
    (toggleRecording 1
      (toggleRecording 1
        (toggleRecording 1 ⟨[], [], [], 0⟩).1).1).1).1

/-- C6 counterexample: in the raced trace the session of entity 1 holds a
completed captured-playback resource (handle 2) while its isRecording
flag is true, and a subsequent toggleRecording call leaves the flag true,
contradicting that the flag is false and stays false once the
captured-playback resource exists. -/
theorem toggleRecording_flag_counterexample :
    lookupEntry racedTraceState.recordingSessions 1 = some ⟨0, 1, some 2, true⟩ ∧
    lookupEntry (toggleRecording 1 racedTraceState).1.recordingSessions 1 =
      some ⟨0, 1, some 2, true⟩ := by
  constructor <;> rfl

/-- C8 counterexample: one recording session whose primary wavesurfer
(handle 1) throws on destroy and which holds a live playback wavesurfer
(handle 2): the cleanup loop attempts only handle 1, and the release of
the sibling playback handle 2 is never attempted, because one try block
wraps both destroys. -/
theorem cleanupRecordingSessions_sibling_counterexample :
    (cleanupRecordingSessionsRun (fun h => h == 1) [⟨1, 9, some 2, false⟩]).1 = [1] ∧
    (2 : ℕ) ∉ (cleanupRecordingSessionsRun (fun h => h == 1) [⟨1, 9, some 2, false⟩]).1 := by
  decide

lemma wavesurfer_mem_cleanupSessionRun (throwsOn : ℕ → Bool) (s : RecorderState) :
    s.wavesurfer ∈ (cleanupSessionRun throwsOn s).1 := by
  unfold cleanupSessionRun
  cases tryDestroy throwsOn s.wavesurfer with
  | error e => simp
  | ok u =>
    cases s.playbackWavesurfer with
    | none => simp
    | some pb => cases h2 : tryDestroy throwsOn pb <;> simp [h2]

lemma playback_mem_cleanupSessionRun (throwsOn : ℕ → Bool) (s : RecorderState)
    (pb : ℕ) (hpb : s.playbackWavesurfer = some pb)
    (hok : throwsOn s.wavesurfer = false) :
    pb ∈ (cleanupSessionRun throwsOn s).1 := by
  have hd : tryDestroy throwsOn s.wavesurfer = Except.ok () := by
    simp [tryDestroy, hok]
  unfold cleanupSessionRun
  rw [hd, hpb]
  cases htry : tryDestroy throwsOn pb <;> simp [htry]

/-- C8 (amended): teardown release is fault-tolerant across map entries
and never propagates a failure: every wavesurfer in the wavesurfers map
has its destroy attempted no matter which destroys throw, every
recording session has its primary wavesurfer destroy attempted no matter
what happens in other sessions, and a session whose primary destroy does
not throw also has its playback wavesurfer destroy attempted. (Within
one session, however, a throwing primary destroy skips the sibling
playback destroy, as the counterexample shows.) -/
theorem cleanup_release_fault_tolerant (throwsOn : ℕ → Bool) (ws : List ℕ)
    (sessions : List RecorderState) :
    (cleanupWavesurfersRun throwsOn ws).1 = ws ∧
    (∀ s, s ∈ sessions →
      s.wavesurfer ∈ (cleanupRecordingSessionsRun throwsOn sessions).1) ∧
    (∀ s pb, s ∈ sessions → s.playbackWavesurfer = some pb →
      throwsOn s.wavesurfer = false →
      pb ∈ (cleanupRecordingSessionsRun throwsOn sessions).1) := by
  refine ⟨?_, ?_, ?_⟩
  · induction ws with
    | nil => rfl
    | cons h rest ih =>
      unfold cleanupWavesurfersRun
      cases tryDestroy throwsOn h <;> simp [ih]
  · induction sessions with
    | nil =>
      intro s hs
      cases hs
    | cons s0 rest ih =>
      intro s hs
      unfold cleanupRecordingSessionsRun
      dsimp only
      rw [List.mem_append]
      rcases List.mem_cons.mp hs with rfl | hmem
      · exact Or.inl (wavesurfer_mem_cleanupSessionRun throwsOn s)
      · exact Or.inr (ih s hmem)
  · induction sessions with
    | nil =>
      intro s pb hs
      cases hs
    | cons s0 rest ih =>
      intro s pb hs hpb hok
      unfold cleanupRecordingSessionsRun
      dsimp only
      rw [List.mem_append]
      rcases List.mem_cons.mp hs with rfl | hmem
      · exact Or.inl (playback_mem_cleanupSessionRun throwsOn s pb hpb hok)
      · exact Or.inr (ih s pb hmem hpb hok)

/-- C8 witness: with destroy throwing exactly on handle 3, both map
wavesurfers 3 and 4 are attempted, the second session is cleaned up even
though the first session threw, and its playback sibling 6 is attempted
as well. -/
theorem cleanup_release_fault_tolerant_holds :
    (cleanupWavesurfersRun (fun h => h == 3) [3, 4]).1 = [3, 4] ∧
    (5 : ℕ) ∈ (cleanupRecordingSessionsRun (fun h => h == 3)
      [⟨3, 9, some 4, false⟩, ⟨5, 9, some 6, false⟩]).1 ∧
    (6 : ℕ) ∈ (cleanupRecordingSessionsRun (fun h => h == 3)
      [⟨3, 9, some 4, false⟩, ⟨5, 9, some 6, false⟩]).1 := by
  have h := cleanup_release_fault_tolerant (fun h => h == 3) [3, 4]
    [⟨3, 9, some 4, false⟩, ⟨5, 9, some 6, false⟩]
  exact ⟨h.1, h.2.1 ⟨5, 9, some 6, false⟩ (by decide),
    h.2.2 ⟨5, 9, some 6, false⟩ 6 (by decide) rfl (by decide)⟩

lemma compareAudio_shape (env : AudioEnv) (pid : ℕ) (st : ComponentState) :
    compareAudio env pid st = st ∨
    ∃ sc, compareAudio env pid st =
      { st with similarityScores := updateEntry st.similarityScores pid sc } := by
  unfold compareAudio
  repeat' split
  all_goals first
  | exact Or.inl rfl
  | exact Or.inr ⟨_, rfl⟩

/-- C9: `compareAudio(pokemonId)` modifies at most the similarityScores
entry of that id: whatever the external decode and transform behavior,
the wavesurfers map, the recording sessions map, the handle counter and
the score of every other entity are unchanged; and on each failure path
(missing session, missing captured-playback wavesurfer, missing
reference wavesurfer, a throwing `getDecodedData`, or a null feature
extraction on either side) the whole state, similarityScores included,
is entirely unchanged. -/
theorem compareAudio_frame (env : AudioEnv) (pid : ℕ) (st : ComponentState) :
    (compareAudio env pid st).wavesurfers = st.wavesurfers ∧
    (compareAudio env pid st).recordingSessions = st.recordingSessions ∧
    (compareAudio env pid st).nextHandle = st.nextHandle ∧
    (∀ q, q ≠ pid → lookupEntry (compareAudio env pid st).similarityScores q =
      lookupEntry st.similarityScores q) ∧
    (lookupEntry st.recordingSessions pid = none → compareAudio env pid st = st) ∧
    (∀ s, lookupEntry st.recordingSessions pid = some s →
      s.playbackWavesurfer = none → compareAudio env pid st = st) ∧
    (lookupEntry st.wavesurfers pid = none → compareAudio env pid st = st) ∧
    (∀ s pb ws, lookupEntry st.recordingSessions pid = some s →
      s.playbackWavesurfer = some pb → lookupEntry st.wavesurfers pid = some ws →
      env.getDecodedData ws = Except.error () → compareAudio env pid st = st) ∧
    (∀ s pb ws bw, lookupEntry st.recordingSessions pid = some s →
      s.playbackWavesurfer = some pb → lookupEntry st.wavesurfers pid = some ws →
      env.getDecodedData ws = Except.ok bw → env.getDecodedData pb = Except.error () →
      compareAudio env pid st = st) ∧
    (∀ s pb ws bw bp, lookupEntry st.recordingSessions pid = some s →
      s.playbackWavesurfer = some pb → lookupEntry st.wavesurfers pid = some ws →
      env.getDecodedData ws = Except.ok bw → env.getDecodedData pb = Except.ok bp →
      (extractFeatures env.meyda bw = none ∨ extractFeatures env.meyda bp = none) →
      compareAudio env pid st = st) := by
  refine ⟨?_, ?_, ?_, ?_, ?_, ?_, ?_, ?_, ?_, ?_⟩
  · rcases compareAudio_shape env pid st with h | ⟨sc, h⟩ <;> rw [h]
  · rcases compareAudio_shape env pid st with h | ⟨sc, h⟩ <;> rw [h]
  · rcases compareAudio_shape env pid st with h | ⟨sc, h⟩ <;> rw [h]
  · intro q hq
    rcases compareAudio_shape env pid st with h | ⟨sc, h⟩
    · rw [h]
    · rw [h]
      exact lookupEntry_updateEntry_ne st.similarityScores pid q sc hq
  · intro h
    simp [compareAudio, h]
  · intro s hs hpb
    simp [compareAudio, hs, hpb]
  · intro h
    rcases h1 : lookupEntry st.recordingSessions pid with _ | s
    · simp [compareAudio, h1]
    · rcases h2 : s.playbackWavesurfer with _ | pb
      · simp [compareAudio, h1, h2]
      · simp [compareAudio, h1, h2, h]
  · intro s pb ws hs hpb hws h4
    simp [compareAudio, hs, hpb, hws, h4]
  · intro s pb ws bw hs hpb hws h4 h5
    simp [compareAudio, hs, hpb, hws, h4, h5]
  · intro s pb ws bw bp hs hpb hws h4 h5 h6
    rcases h6 with h6 | h6
    · simp [compareAudio, hs, hpb, hws, h4, h5, h6]
    · rcases h7 : extractFeatures env.meyda bw with _ | pf
      · simp [compareAudio, hs, hpb, hws, h4, h5, h7]
      · simp [compareAudio, hs, hpb, hws, h4, h5, h6, h7]

/-- C9 witness: an environment whose decode always throws and a session
with a captured playback: the comparison leaves the state untouched, as
does the call with no session at all, and the score of another entity is
unaffected. -/
theorem compareAudio_frame_holds :
    compareAudio ⟨fun _ => Except.error (), fun _ => none⟩ 1 ⟨[], [], [], 0⟩ =
      ⟨[], [], [], 0⟩ ∧
    compareAudio ⟨fun _ => Except.error (), fun _ => none⟩ 1
      ⟨[(1, 5)], [(1, ⟨0, 1, some 2, false⟩)], [(4, 77)], 3⟩ =
      ⟨[(1, 5)], [(1, ⟨0, 1, some 2, false⟩)], [(4, 77)], 3⟩ ∧
    lookupEntry (compareAudio ⟨fun _ => Except.error (), fun _ => none⟩ 1
      ⟨[(1, 5)], [(1, ⟨0, 1, some 2, false⟩)], [(4, 77)], 3⟩).similarityScores 4 =
      lookupEntry [(4, 77)] 4 :=
  ⟨(compareAudio_frame ⟨fun _ => Except.error (), fun _ => none⟩ 1
      ⟨[], [], [], 0⟩).2.2.2.2.1 rfl,
   (compareAudio_frame ⟨fun _ => Except.error (), fun _ => none⟩ 1
      ⟨[(1, 5)], [(1, ⟨0, 1, some 2, false⟩)], [(4, 77)], 3⟩).2.2.2.2.2.2.2.1
      ⟨0, 1, some 2, false⟩ 2 5 rfl rfl rfl rfl,
   (compareAudio_frame ⟨fun _ => Except.error (), fun _ => none⟩ 1
      ⟨[(1, 5)], [(1, ⟨0, 1, some 2, false⟩)], [(4, 77)], 3⟩).2.2.2.1 4 (by decide)⟩
